import Mathlib

/-!
Shallow embedding of `main_webhook.py`, the webhook variant of the
"Лыжный Базар" Telegram classifieds bot, together with theorems checking
the natural-language specification against it.

The Python program is single-threaded and event-driven; every handler we
model is a pure function from its inputs (environment variables, the
JSON-backed submissions store, the conversation's `user_data` dict, the
incoming update) to an updated store plus an ordered trace of provider
calls (messages sent, edits, file writes).  Provider calls that the code
performs inside a `try` are parameterised by an `Except`-valued outcome.

String handling: the Python code uses `str.strip`, `str.replace`,
`str.split`, `str.join`, `str.upper`, `int(...)` and f-strings.  These are
re-implemented here structurally over `List Char` (the logical model of
`String`) so that every definition evaluates by `rfl`/`decide`; Lean core's
own `String.posOf`/`splitOn`/`trim` are defined by well-founded recursion
and do not reduce in the kernel.
-/

/-- Character-list model of `str.strip()`: drop whitespace from both ends. -/
def pyStrip (s : String) : String :=
  ⟨((s.data.dropWhile Char.isWhitespace).reverse.dropWhile Char.isWhitespace).reverse⟩

/-- Model of `s.replace(" ", "_")` (single-character pattern, so a char map). -/
def replaceSpaceUnderscore (s : String) : String :=
  ⟨s.data.map (fun c => if c = ' ' then '_' else c)⟩

/-- Model of Python `sep.join(parts)`. -/
def pyJoin (sep : String) : List String → String
  | [] => ""
  | [x] => x
  | x :: xs => x ++ sep ++ pyJoin sep xs

/-- Model of `str.upper()` (character-wise; the MODE values involved are ASCII). -/
def pyToUpper (s : String) : String := ⟨s.data.map Char.toUpper⟩

/-- Model of `s.startswith(p)`. -/
def strStartsWith (s p : String) : Bool := p.data.isPrefixOf s.data

/-- Auxiliary for `splitOnChar`: accumulate the current piece until `c` is hit. -/
def splitOnCharAux (c : Char) : List Char → List Char → List (List Char)
  | [], acc => [acc.reverse]
  | x :: xs, acc =>
    if x = c then acc.reverse :: splitOnCharAux c xs []
    else splitOnCharAux c xs (x :: acc)

/-- Model of Python `s.split(c)` for a one-character separator. -/
def splitOnChar (s : String) (c : Char) : List String :=
  (splitOnCharAux c s.data []).map (fun l => ⟨l⟩)

/-- Everything after the first `':'`, i.e. `data.split(":", 1)[1]` when a colon
is present.  The moderation handler only reaches this on callback data matching
`^(approve:|reject:)`, so a colon is always present there. -/
def afterFirstColonAux : List Char → Option (List Char)
  | [] => none
  | c :: cs => if c = ':' then some cs else afterFirstColonAux cs

/-- Model of `data.split(":", 1)[1]` (the submission id part of callback data). -/
def py_split1_tail (s : String) : String :=
  match afterFirstColonAux s.data with
  | some cs => ⟨cs⟩
  | none => s

/-- Decimal digit value, used by `pyToInt`. -/
def digitVal (c : Char) : Option Nat :=
  if c.isDigit then some (c.toNat - '0'.toNat) else none

/-- Parse a nonempty all-digit character list as a natural number. -/
def parseDigits (cs : List Char) : Option Nat :=
  if cs.isEmpty then none
  else cs.foldl
    (fun acc c =>
      match acc, digitVal c with
      | some n, some d => some (n * 10 + d)
      | _, _ => none)
    (some 0)

/-- Model of Python `int(s)` on an already-stripped string: optional sign then
decimal digits; anything else raises `ValueError`, modelled as `none`. -/
def pyToInt (s : String) : Option Int :=
  match s.data with
  | '-' :: rest => (parseDigits rest).map (fun n => -(n : Int))
  | '+' :: rest => (parseDigits rest).map (fun n => (n : Int))
  | cs => (parseDigits cs).map (fun n => (n : Int))

/-! ## Data model -/

/-- Kind tag of a collected media item (`("photo", file_id)` / `("video", file_id)`
tuples in the Python code). -/
inductive MediaKind
  | photo
  | video
deriving DecidableEq, Repr

/-- The conversation's `context.user_data` dict.  Each text field is `some v`
exactly when the corresponding key has been stored; `media` is `some l` when
the `"media"` key is present (`/start` sets it to `some []`, `clear()` drops
it to `none`).  The code reads fields with `data.get(key)` / `data.get(key, default)`,
modelled by `Option.getD`. -/
structure UserData where
  category : Option String := none
  item : Option String := none
  size : Option String := none
  condition : Option String := none
  price : Option String := none
  city : Option String := none
  delivery : Option String := none
  contact : Option String := none
  description : Option String := none
  media : Option (List (MediaKind × String)) := none
deriving DecidableEq, Repr

/-- The empty `user_data` dict (after `context.user_data.clear()`). -/
def UserData.empty : UserData := {}

/-- One pending submission record as stored in `submissions.json`
(`confirm_handler`, lines 252-257). -/
structure Submission where
  user_id : Int
  username : Option String
  data : UserData
  created_at : String
deriving DecidableEq, Repr

/-- The submissions store: the JSON object mapping submission id to record,
modelled as an association list with distinct keys. -/
abbrev Db := List (String × Submission)

/-- Model of `db.get(sub_id)`. -/
def dbGet (db : Db) (k : String) : Option Submission :=
  (db.find? (fun p => p.1 == k)).map (fun p => p.2)

/-- Model of `db.pop(sub_id, None)`: remove the key's entry. -/
def dbPop (db : Db) (k : String) : Db :=
  db.filter (fun p => p.1 != k)

/-- Model of `db[sub_id] = record`. -/
def dbSet (db : Db) (k : String) (v : Submission) : Db :=
  if (db.find? (fun p => p.1 == k)).isSome then
    db.map (fun p => if p.1 == k then (k, v) else p)
  else
    db ++ [(k, v)]

/-- The process environment (`os.environ`), an association list. -/
abbrev EnvMap := List (String × String)

/-- Model of `os.getenv(name)` without default. -/
def lookupEnv (environ : EnvMap) (name : String) : Option String :=
  (environ.find? (fun p => p.1 == name)).map (fun p => p.2)

/-- Model of the helper `env(name, default)` (lines 62-66): `os.getenv(name, default)`,
raising `RuntimeError(f"Missing required env var: {name}")` when the result is `None`. -/
def env (environ : EnvMap) (name : String) (default : Option String) :
    Except String String :=
  match lookupEnv environ name with
  | some v => Except.ok v
  | none =>
    match default with
    | some d => Except.ok d
    | none => Except.error ("Missing required env var: " ++ name)

/-- Model of `get_admin_ids()` (lines 68-78): split `ADMIN_IDS` (default `""`)
on commas, strip each part, keep nonempty parts that parse as integers
(non-integers are logged and skipped). -/
def get_admin_ids (environ : EnvMap) : List Int :=
  let raw :=
    match env environ "ADMIN_IDS" (some "") with
    | Except.ok v => v
    | Except.error _ => ""
  (splitOnChar raw ',').filterMap
    (fun part =>
      let p := pyStrip part
      if p = "" then none else pyToInt p)

/-- Model of `get_channel_id()` (lines 80-81): `env("CHANNEL_ID")`, which raises
when the variable is absent. -/
def get_channel_id (environ : EnvMap) : Except String String :=
  env environ "CHANNEL_ID" none

/-- Model of `is_admin(user_id)` (lines 110-111). -/
def is_admin (environ : EnvMap) (user_id : Int) : Bool :=
  (get_admin_ids environ).contains user_id

/-- Python truthiness of `data.get(key)` for a string field: present and nonempty. -/
def pyTruthy : Option String → Bool
  | some s => s != ""
  | none => false

/-- One conditional `tags.append(f"#{value.replace(' ', '_')}")` of
`format_listing` (lines 85-93): a singleton when the field is truthy, else nothing. -/
def tagPiece (o : Option String) : List String :=
  if pyTruthy o then ["#" ++ replaceSpaceUnderscore (o.getD "")] else []

/-- Model of `format_listing(data)` (lines 83-108): hashtag line built from
category/size/condition/city, then the fixed field block. -/
def format_listing (data : UserData) : String :=
  let tags :=
    tagPiece data.category ++ tagPiece data.size ++
    tagPiece data.condition ++ tagPiece data.city
  let tags_line := if tags ≠ [] then pyJoin " " tags else ""
  tags_line ++ "\n\n" ++
  "<b>Товар:</b> " ++ data.item.getD "—" ++ "\n" ++
  "<b>Размер:</b> " ++ data.size.getD "—" ++ "\n" ++
  "<b>Состояние:</b> " ++ data.condition.getD "—" ++ "\n" ++
  "<b>Цена:</b> " ++ data.price.getD "—" ++ "\n" ++
  "<b>Город:</b> " ++ data.city.getD "—" ++ "\n" ++
  "<b>Доставка:</b> " ++ data.delivery.getD "—" ++ "\n" ++
  "<b>Контакт:</b> " ++ data.contact.getD "—" ++ "\n\n" ++
  "<b>Описание:</b> " ++ data.description.getD "—"

/-! ## Conversation states and provider-call effects -/

/-- Conversation state indices, `range(11)` (line 39-41). -/
def CAT : Nat := 0
def ITEM : Nat := 1
def SIZE : Nat := 2
def CONDITION : Nat := 3
def PRICE : Nat := 4
def CITY : Nat := 5
def DELIVERY : Nat := 6
def CONTACT : Nat := 7
def DESCRIPTION : Nat := 8
def MEDIA : Nat := 9
def CONFIRM : Nat := 10

/-- A handler's return value: either a conversation state or `ConversationHandler.END`. -/
inductive NextState
  | state (n : Nat)
  | ended
deriving DecidableEq, Repr

/-- One item of a prepared media album (`InputMediaPhoto`/`InputMediaVideo`):
kind, file id, and the caption attached to it (`None` for all but the first). -/
structure AlbumItem where
  kind : MediaKind
  media : String
  caption : Option String
deriving DecidableEq, Repr

/-- Model of the identical `for i, (kind, fid) in enumerate(media_list)` album
loops at the three send sites (`media_done` lines 222-231, `confirm_handler`
lines 278-284, `moderation_handler` lines 325-331): the caption `text` is put
on item 0, `None` on every later item. -/
def mkAlbum (media_list : List (MediaKind × String)) (text : String) : List AlbumItem :=
  media_list.enum.map (fun p => ⟨p.2.1, p.2.2, if p.1 = 0 then some text else none⟩)

/-- An observable provider call (Telegram Bot API call or a write of
`submissions.json`), in the order the handler performs it. -/
inductive Effect
  | answerCallback
  | editMessage (text : String)
  | replyText (text : String)
  | replyPhoto (fid : String) (caption : String)
  | replyVideo (fid : String) (caption : String)
  | replyMediaGroup (album : List AlbumItem)
  | sendUserPhoto (chat : Int) (fid : String) (caption : String)
  | sendUserVideo (chat : Int) (fid : String) (caption : String)
  | sendUserMediaGroup (chat : Int) (album : List AlbumItem)
  | sendUserMessage (chat : Int) (text : String)
  | sendChannelPhoto (chat : String) (fid : String) (caption : String)
  | sendChannelVideo (chat : String) (fid : String) (caption : String)
  | sendChannelMediaGroup (chat : String) (album : List AlbumItem)
  | removeFromDb (sub_id : String)
  | saveDb
deriving DecidableEq, Repr

/-! ## Conversation handlers (form collector) -/

/-- Model of `start` (lines 114-123): greet, `user_data.clear()`, set
`user_data["media"] = []`, go to CAT.  The input is the pre-existing
`user_data`, which is discarded. -/
def start_handler (_d : UserData) : UserData × List Effect × NextState :=
  ({ UserData.empty with media := some [] },
   [Effect.replyText
      "Привет! Это бот для подачи объявлений «Лыжный Базар».\nОтвечай на вопросы по очереди. В любой момент можно /cancel.\n\nСначала выбери категорию (можно просто написать):\nПримеры: Лыжи, Ботинки, Палки, Крепления, Одежда, Лыжероллеры"],
   NextState.state CAT)

/-- Model of `cancel` (lines 125-128): reply, `user_data.clear()`, END. -/
def cancel_handler (_d : UserData) : UserData × List Effect × NextState :=
  (UserData.empty,
   [Effect.replyText "Отменено. Возвращайся, когда будешь готов. /start"],
   NextState.ended)

/-- Model of `set_cat` (lines 142-145). -/
def set_cat (text : String) (d : UserData) : UserData × List Effect × NextState :=
  ({ d with category := some (pyStrip text) },
   [Effect.replyText "Название товара (например: Salomon S/Race Skate BOA):"],
   NextState.state ITEM)

/-- Model of `set_item` (lines 147-150). -/
def set_item (text : String) (d : UserData) : UserData × List Effect × NextState :=
  ({ d with item := some (pyStrip text) },
   [Effect.replyText "Размер (например: 38 / 24.0 / 187 см):"],
   NextState.state SIZE)

/-- Model of `set_size` (lines 152-155). -/
def set_size (text : String) (d : UserData) : UserData × List Effect × NextState :=
  ({ d with size := some (pyStrip text) },
   [Effect.replyText "Состояние (новые / как новые / б/у, пробег):"],
   NextState.state CONDITION)

/-- Model of `set_condition` (lines 157-160). -/
def set_condition (text : String) (d : UserData) : UserData × List Effect × NextState :=
  ({ d with condition := some (pyStrip text) },
   [Effect.replyText "Цена (например: 29 000 ₽):"],
   NextState.state PRICE)

/-- Model of `set_price` (lines 162-165). -/
def set_price (text : String) (d : UserData) : UserData × List Effect × NextState :=
  ({ d with price := some (pyStrip text) },
   [Effect.replyText "Город (например: Москва / Дмитров):"],
   NextState.state CITY)

/-- Model of `set_city` (lines 167-170). -/
def set_city (text : String) (d : UserData) : UserData × List Effect × NextState :=
  ({ d with city := some (pyStrip text) },
   [Effect.replyText "Доставка (например: СДЭК/личная встреча):"],
   NextState.state DELIVERY)

/-- Model of `set_delivery` (lines 172-175). -/
def set_delivery (text : String) (d : UserData) : UserData × List Effect × NextState :=
  ({ d with delivery := some (pyStrip text) },
   [Effect.replyText "Контакт (например: @username):"],
   NextState.state CONTACT)

/-- Model of `set_contact` (lines 177-182). -/
def set_contact (text : String) (d : UserData) : UserData × List Effect × NextState :=
  ({ d with contact := some (pyStrip text) },
   [Effect.replyText "Короткое описание (1–2 предложения: сезон, уровень, нюансы):"],
   NextState.state DESCRIPTION)

/-- Model of `set_description` (lines 184-189). -/
def set_description (text : String) (d : UserData) : UserData × List Effect × NextState :=
  ({ d with description := some (pyStrip text) },
   [Effect.replyText "Пришли 3–8 фото/видео (можно альбомом). Когда закончишь — отправь «готово»."],
   NextState.state MEDIA)

/-- An incoming message's media content, for `collect_media` (a photo's best
resolution `file_id`, a video's `file_id`, or neither). -/
inductive IncomingMedia
  | photo (file_id : String)
  | video (file_id : String)
  | neither
deriving DecidableEq, Repr

/-- Model of `collect_media` (lines 191-202): append the item to
`user_data.get("media", [])` and stay in MEDIA. -/
def collect_media (m : IncomingMedia) (d : UserData) : UserData × List Effect × NextState :=
  let media_list := d.media.getD []
  let media_list :=
    match m with
    | IncomingMedia.photo fid => media_list ++ [(MediaKind.photo, fid)]
    | IncomingMedia.video fid => media_list ++ [(MediaKind.video, fid)]
    | IncomingMedia.neither => media_list
  ({ d with media := some media_list }, [], NextState.state MEDIA)

/-- The preview send of `media_done` (lines 214-232): a single photo/video is
replied with the caption; two or more items are sent as an album built by the
enumerate loop. -/
def previewSend (media_list : List (MediaKind × String)) (text : String) : Effect :=
  match media_list with
  | [(MediaKind.photo, fid)] => Effect.replyPhoto fid text
  | [(MediaKind.video, fid)] => Effect.replyVideo fid text
  | _ => Effect.replyMediaGroup (mkAlbum media_list text)

/-- Model of `media_done` (lines 204-239): with no media collected, ask again
and stay in MEDIA; otherwise render the listing, send the preview and the
confirmation prompt, and go to CONFIRM. -/
def media_done (d : UserData) : List Effect × NextState :=
  let media_list := d.media.getD []
  if media_list.length = 0 then
    ([Effect.replyText "Не вижу медиа. Пришли хотя бы 1 фото, пожалуйста."],
     NextState.state MEDIA)
  else
    let text := format_listing d
    ([previewSend media_list text,
      Effect.replyText "Проверь объявление. Всё верно?"],
     NextState.state CONFIRM)

/-! ## Submission and moderation -/

/-- The per-admin notification sends of `confirm_handler` (lines 269-287):
single photo/video with caption, or an album (enumerate loop) followed by a
separate "Публикация:" message carrying the buttons. -/
def adminSend (aid : Int) (media_list : List (MediaKind × String)) (text : String) :
    List Effect :=
  match media_list with
  | [(MediaKind.photo, fid)] => [Effect.sendUserPhoto aid fid text]
  | [(MediaKind.video, fid)] => [Effect.sendUserVideo aid fid text]
  | _ =>
    [Effect.sendUserMediaGroup aid (mkAlbum media_list text),
     Effect.sendUserMessage aid "Публикация:"]

/-- Model of `confirm_handler` (lines 241-293).  `qdata` is the callback data
(`"submit"` or `"edit"`); `now` is `int(datetime.utcnow().timestamp())` and
`nowIso` the ISO timestamp.  Returns the updated store, the updated
`user_data`, the effect trace and the conversation result. -/
def confirm_handler (environ : EnvMap) (uid : Int) (username : Option String)
    (qdata : String) (d : UserData) (db : Db) (now : Nat) (nowIso : String) :
    Db × UserData × List Effect × NextState :=
  if qdata = "edit" then
    (db, UserData.empty,
     [Effect.answerCallback, Effect.editMessage "Окей, начнём заново. /start"],
     NextState.ended)
  else
    let sub_id := toString uid ++ "_" ++ toString now
    let db := dbSet db sub_id ⟨uid, username, d, nowIso⟩
    let text := format_listing d
    let media_list := d.media.getD []
    let notif := (get_admin_ids environ).flatMap (fun aid => adminSend aid media_list text)
    (db, UserData.empty,
     [Effect.answerCallback] ++ [Effect.saveDb] ++ notif ++
       [Effect.editMessage "Отправлено на модерацию. Спасибо!"],
     NextState.ended)

/-- The channel publish send of the approve branch (lines 316-332): single
photo/video with the rendered caption, or the enumerate-loop album. -/
def channelSendFor (channel_id : String) (media_list : List (MediaKind × String))
    (text : String) : Effect :=
  match media_list with
  | [(MediaKind.photo, fid)] => Effect.sendChannelPhoto channel_id fid text
  | [(MediaKind.video, fid)] => Effect.sendChannelVideo channel_id fid text
  | _ => Effect.sendChannelMediaGroup channel_id (mkAlbum media_list text)

/-- Result of one `moderation_handler` invocation: the submissions store after
the call, the ordered provider-call trace, and `some msg` when the handler
itself raised (only possible from `get_channel_id()` on a missing
`CHANNEL_ID`, line 313, which sits outside the `try`). -/
structure ModResult where
  db : Db
  trace : List Effect
  raised : Option String
deriving DecidableEq, Repr

/-- Model of `moderation_handler` (lines 295-347).  `publish` is the outcome of
the channel send performed inside the `try` (lines 317-332): `Except.ok ()` if
the provider call succeeds, `Except.error e` if it raises with message `e`. -/
def moderation_handler (environ : EnvMap) (uid : Int) (data : String) (db : Db)
    (publish : Except String Unit) : ModResult :=
  if is_admin environ uid = false then
    ⟨db, [Effect.answerCallback, Effect.editMessage "Недостаточно прав."], none⟩
  else if strStartsWith data "approve:" then
    let sub_id := py_split1_tail data
    match dbGet db sub_id with
    | none =>
      ⟨db, [Effect.answerCallback,
            Effect.editMessage "Заявка не найдена или уже обработана."], none⟩
    | some sub =>
      let text := format_listing sub.data
      match get_channel_id environ with
      | Except.error e => ⟨db, [Effect.answerCallback], some e⟩
      | Except.ok channel_id =>
        let sendEff := channelSendFor channel_id (sub.data.media.getD []) text
        match publish with
        | Except.ok _ =>
          ⟨dbPop db sub_id,
           [Effect.answerCallback, sendEff,
            Effect.editMessage ("✅ Опубликовано в " ++ channel_id),
            Effect.removeFromDb sub_id, Effect.saveDb], none⟩
        | Except.error e =>
          ⟨db, [Effect.answerCallback, sendEff,
                Effect.editMessage ("Ошибка публикации: " ++ e)], none⟩
  else if strStartsWith data "reject:" then
    let sub_id := py_split1_tail data
    if (dbGet db sub_id).isSome then
      ⟨dbPop db sub_id,
       [Effect.answerCallback, Effect.removeFromDb sub_id, Effect.saveDb,
        Effect.editMessage "❌ Отклонено и удалено."], none⟩
    else
      ⟨db, [Effect.answerCallback, Effect.editMessage "❌ Отклонено и удалено."], none⟩
  else ⟨db, [Effect.answerCallback], none⟩

/-! ## Startup (`__main__`, lines 382-401) -/

/-- Model of the startup path: read `MODE` (default `"WEBHOOK"`, uppercased),
build the application (`build_app`, line 351, which requires `BOT_TOKEN`), and
in webhook mode parse `PORT` (default `"10000"`) and require `WEBHOOK_URL`.
`CHANNEL_ID` is not read here. -/
def py_main (environ : EnvMap) : Except String Unit :=
  let mode := pyToUpper ((lookupEnv environ "MODE").getD "WEBHOOK")
  match env environ "BOT_TOKEN" none with
  | Except.error e => Except.error e
  | Except.ok _ =>
    if mode = "WEBHOOK" then
      match pyToInt ((lookupEnv environ "PORT").getD "10000") with
      | none => Except.error "invalid PORT"
      | some _ =>
        match env environ "WEBHOOK_URL" none with
        | Except.error e => Except.error e
        | Except.ok _ => Except.ok ()
    else Except.ok ()

/-! ## Spec-side rendering (for the refinement claim about the preview) -/

/-- The spec's hashtag for one key field: present and nonempty gives
`#value` with spaces underscored, otherwise nothing. -/
def specTagOf (o : Option String) : Option String :=
  match o with
  | some s => if s ≠ "" then some ("#" ++ replaceSpaceUnderscore s) else none
  | none => none

/-- The spec's tag list: built from category, size, condition, city, in that
order, keeping only the present nonempty fields. -/
def spec_tags (d : UserData) : List String :=
  [d.category, d.size, d.condition, d.city].filterMap specTagOf

/-- The spec's ordered field lines: item, size, condition, price, city,
delivery, contact — each rendered as its label followed by the entered value,
with a missing field rendered as the placeholder dash. -/
def specFieldLines (d : UserData) : List String :=
  List.zipWith (fun lab v => lab ++ v.getD "—")
    ["<b>Товар:</b> ", "<b>Размер:</b> ", "<b>Состояние:</b> ", "<b>Цена:</b> ",
     "<b>Город:</b> ", "<b>Доставка:</b> ", "<b>Контакт:</b> "]
    [d.item, d.size, d.condition, d.price, d.city, d.delivery, d.contact]

/-- The preview as the spec describes it: the tag line, a blank line, the
ordered field lines, a blank line, then the description line (dash when
missing). -/
def spec_preview (d : UserData) : String :=
  pyJoin " " (spec_tags d) ++ "\n\n" ++
  pyJoin "\n" (specFieldLines d) ++ "\n\n" ++
  ("<b>Описание:</b> " ++ d.description.getD "—")

/-! ## Helper lemmas -/

/-- After popping a key, looking it up yields nothing. -/
theorem dbGet_dbPop (db : Db) (k : String) : dbGet (dbPop db k) k = none := by
  simp only [dbGet, dbPop, Option.map_eq_none']
  rw [List.find?_eq_none]
  intro x hx
  have h := List.of_mem_filter hx
  simp only [bne_iff_ne, ne_eq] at h
  simp [h]

/-- A tag append of `format_listing` is the option-valued spec tag, as a list. -/
theorem tagPiece_eq_toList (o : Option String) :
    tagPiece o = (specTagOf o).toList := by
  cases o with
  | none => rfl
  | some s =>
    by_cases h : s = ""
    · simp [tagPiece, specTagOf, pyTruthy, h]
    · simp [tagPiece, specTagOf, pyTruthy, h]

/-! ## Claim theorems -/

/-- C10: an approve or reject callback from a sender who is not in the
configured administrator list replies "Недостаточно прав." ("insufficient
rights"), leaves the submissions store completely unchanged, sends nothing to
the channel, and raises nothing — regardless of the callback data, of whether
the targeted submission exists, and of the provider's publish outcome. -/
theorem claim_C10 (environ : EnvMap) (uid : Int) (data : String) (db : Db)
    (publish : Except String Unit) (h : is_admin environ uid = false) :
    moderation_handler environ uid data db publish =
      ⟨db, [Effect.answerCallback, Effect.editMessage "Недостаточно прав."], none⟩ := by
  simp [moderation_handler, h]

/-- Witness for C10 at a concrete non-admin sender and a concrete pending id. -/
theorem claim_C10_witness :
    is_admin [("ADMIN_IDS", "1"), ("CHANNEL_ID", "@chan")] 2 = false ∧
    moderation_handler [("ADMIN_IDS", "1"), ("CHANNEL_ID", "@chan")] 2 "approve:5_100"
        [("5_100", ⟨5, some "user", { UserData.empty with item := some "x" }, "2024"⟩)]
        (Except.ok ()) =
      ⟨[("5_100", ⟨5, some "user", { UserData.empty with item := some "x" }, "2024"⟩)],
       [Effect.answerCallback, Effect.editMessage "Недостаточно прав."], none⟩ :=
  ⟨by decide,
   claim_C10 [("ADMIN_IDS", "1"), ("CHANNEL_ID", "@chan")] 2 "approve:5_100"
     [("5_100", ⟨5, some "user", { UserData.empty with item := some "x" }, "2024"⟩)]
     (Except.ok ()) (by decide)⟩

/-- C3: an admin's reject on a submission present in the store removes exactly
that entry and saves, performs no channel send of any kind (the trace holds no
publish call), never raises, and the id is gone afterwards. -/
theorem claim_C3 (environ : EnvMap) (uid : Int) (data : String) (db : Db)
    (publish : Except String Unit) (sub : Submission)
    (hadm : is_admin environ uid = true)
    (hnotA : strStartsWith data "approve:" = false)
    (hrej : strStartsWith data "reject:" = true)
    (hsub : dbGet db (py_split1_tail data) = some sub) :
    moderation_handler environ uid data db publish =
      ⟨dbPop db (py_split1_tail data),
       [Effect.answerCallback, Effect.removeFromDb (py_split1_tail data), Effect.saveDb,
        Effect.editMessage "❌ Отклонено и удалено."], none⟩
    ∧ dbGet (dbPop db (py_split1_tail data)) (py_split1_tail data) = none := by
  constructor
  · simp [moderation_handler, hadm, hnotA, hrej, hsub]
  · exact dbGet_dbPop db (py_split1_tail data)

/-- Witness for C3: a concrete reject of a present submission. -/
theorem claim_C3_witness :
    moderation_handler [("ADMIN_IDS", "7"), ("CHANNEL_ID", "@chan")] 7 "reject:5_100"
        [("5_100", ⟨5, none, { UserData.empty with item := some "x" }, "2024"⟩)]
        (Except.ok ()) =
      ⟨dbPop [("5_100", ⟨5, none, { UserData.empty with item := some "x" }, "2024"⟩)]
          (py_split1_tail "reject:5_100"),
       [Effect.answerCallback, Effect.removeFromDb (py_split1_tail "reject:5_100"),
        Effect.saveDb, Effect.editMessage "❌ Отклонено и удалено."], none⟩
    ∧ dbGet
        (dbPop [("5_100", ⟨5, none, { UserData.empty with item := some "x" }, "2024"⟩)]
          (py_split1_tail "reject:5_100"))
        (py_split1_tail "reject:5_100") = none :=
  claim_C3 [("ADMIN_IDS", "7"), ("CHANNEL_ID", "@chan")] 7 "reject:5_100"
    [("5_100", ⟨5, none, { UserData.empty with item := some "x" }, "2024"⟩)]
    (Except.ok ()) ⟨5, none, { UserData.empty with item := some "x" }, "2024"⟩
    (by decide) (by decide) (by decide) (by decide)

/-- C2: when an admin approves a pending submission and the channel publish
call raises with message `e`, the handler edits the moderator's message to the
short error string "Ошибка публикации: e", the store is left unchanged (the
entry stays pending; no save, no removal), the single publish attempt is not
retried, and nothing is raised. -/
theorem claim_C2 (environ : EnvMap) (uid : Int) (data : String) (db : Db)
    (sub : Submission) (ch e : String)
    (hadm : is_admin environ uid = true)
    (happ : strStartsWith data "approve:" = true)
    (hsub : dbGet db (py_split1_tail data) = some sub)
    (hch : get_channel_id environ = Except.ok ch) :
    moderation_handler environ uid data db (Except.error e) =
      ⟨db, [Effect.answerCallback,
            channelSendFor ch (sub.data.media.getD []) (format_listing sub.data),
            Effect.editMessage ("Ошибка публикации: " ++ e)], none⟩ := by
  simp [moderation_handler, hadm, happ, hsub, hch]

/-- Witness for C2: a concrete failed publish leaves the concrete store intact
and reports the error. -/
theorem claim_C2_witness :
    moderation_handler [("ADMIN_IDS", "7"), ("CHANNEL_ID", "@chan")] 7 "approve:5_100"
        [("5_100", ⟨5, none,
           { UserData.empty with item := some "x",
                                 media := some [(MediaKind.photo, "f1")] }, "2024"⟩)]
        (Except.error "Timed out") =
      ⟨[("5_100", ⟨5, none,
          { UserData.empty with item := some "x",
                                media := some [(MediaKind.photo, "f1")] }, "2024"⟩)],
       [Effect.answerCallback,
        channelSendFor "@chan"
          (({ UserData.empty with item := some "x",
                                  media := some [(MediaKind.photo, "f1")] :
              UserData }).media.getD [])
          (format_listing
            { UserData.empty with item := some "x",
                                  media := some [(MediaKind.photo, "f1")] }),
        Effect.editMessage ("Ошибка публикации: " ++ "Timed out")], none⟩ :=
  claim_C2 [("ADMIN_IDS", "7"), ("CHANNEL_ID", "@chan")] 7 "approve:5_100"
    [("5_100", ⟨5, none,
       { UserData.empty with item := some "x",
                             media := some [(MediaKind.photo, "f1")] }, "2024"⟩)]
    ⟨5, none,
      { UserData.empty with item := some "x",
                            media := some [(MediaKind.photo, "f1")] }, "2024"⟩
    "@chan" "Timed out" (by decide) (by decide) (by decide) rfl

/-- Whether an effect is a direct message to the chat of user `uo` (the only
way this program ever notifies a user outside the webhook reply context). -/
def notifiesUser (uo : Int) : Effect → Bool
  | Effect.sendUserPhoto c _ _ => c == uo
  | Effect.sendUserVideo c _ _ => c == uo
  | Effect.sendUserMediaGroup c _ => c == uo
  | Effect.sendUserMessage c _ => c == uo
  | _ => false

/-- A channel publish effect is never a user notification. -/
theorem notifiesUser_channelSendFor (uo : Int) (ch : String)
    (media_list : List (MediaKind × String)) (text : String) :
    notifiesUser uo (channelSendFor ch media_list text) = false := by
  unfold channelSendFor
  split <;> rfl

/-- C4 counterexample: a concrete successful approve.  The trace shows the
publish, then the success edit of the moderator's message, then the removal
and save — and it contains no message to the origin user (id 5) at all, so the
claimed "then notifies the origin user that the submission was published"
step does not happen, and the removal is not followed by any notification. -/
theorem claim_C4_counterexample :
    moderation_handler [("ADMIN_IDS", "7"), ("CHANNEL_ID", "@chan")] 7 "approve:5_100"
        [("5_100", ⟨5, none,
           { UserData.empty with item := some "x",
                                 media := some [(MediaKind.photo, "f1")] }, "2024"⟩)]
        (Except.ok ()) =
      ⟨[],
       [Effect.answerCallback,
        Effect.sendChannelPhoto "@chan" "f1"
          (format_listing
            { UserData.empty with item := some "x",
                                  media := some [(MediaKind.photo, "f1")] }),
        Effect.editMessage ("✅ Опубликовано в " ++ "@chan"),
        Effect.removeFromDb "5_100", Effect.saveDb], none⟩
    ∧ ((moderation_handler [("ADMIN_IDS", "7"), ("CHANNEL_ID", "@chan")] 7 "approve:5_100"
        [("5_100", ⟨5, none,
           { UserData.empty with item := some "x",
                                 media := some [(MediaKind.photo, "f1")] }, "2024"⟩)]
        (Except.ok ())).trace.any (notifiesUser 5)) = false := by
  constructor
  · rfl
  · rfl

/-- C4 amended: on a successful approve the handler re-sends the stored
content to the channel, then edits the moderation message to report success to
the moderator, and then removes the entry from the store and saves; it sends
no message to the origin user (nor to any other user chat). -/
theorem claim_C4_amended (environ : EnvMap) (uid : Int) (data : String) (db : Db)
    (sub : Submission) (ch : String)
    (hadm : is_admin environ uid = true)
    (happ : strStartsWith data "approve:" = true)
    (hsub : dbGet db (py_split1_tail data) = some sub)
    (hch : get_channel_id environ = Except.ok ch) :
    moderation_handler environ uid data db (Except.ok ()) =
      ⟨dbPop db (py_split1_tail data),
       [Effect.answerCallback,
        channelSendFor ch (sub.data.media.getD []) (format_listing sub.data),
        Effect.editMessage ("✅ Опубликовано в " ++ ch),
        Effect.removeFromDb (py_split1_tail data), Effect.saveDb], none⟩
    ∧ ∀ uo : Int,
        ((moderation_handler environ uid data db (Except.ok ())).trace.any
          (notifiesUser uo)) = false := by
  have hmain :
      moderation_handler environ uid data db (Except.ok ()) =
        ⟨dbPop db (py_split1_tail data),
         [Effect.answerCallback,
          channelSendFor ch (sub.data.media.getD []) (format_listing sub.data),
          Effect.editMessage ("✅ Опубликовано в " ++ ch),
          Effect.removeFromDb (py_split1_tail data), Effect.saveDb], none⟩ := by
    simp [moderation_handler, hadm, happ, hsub, hch]
  refine ⟨hmain, fun uo => ?_⟩
  rw [hmain]
  simp only [List.any_cons, List.any_nil, notifiesUser_channelSendFor]
  rfl

/-- Witness for C4 amended at a concrete successful approve. -/
theorem claim_C4_witness :
    moderation_handler [("ADMIN_IDS", "7"), ("CHANNEL_ID", "@chan")] 7 "approve:6_200"
        [("6_200", ⟨6, none,
           { UserData.empty with item := some "y",
                                 media := some [(MediaKind.video, "v1")] }, "2024"⟩)]
        (Except.ok ()) =
      ⟨dbPop [("6_200", ⟨6, none,
           { UserData.empty with item := some "y",
                                 media := some [(MediaKind.video, "v1")] }, "2024"⟩)]
          (py_split1_tail "approve:6_200"),
       [Effect.answerCallback,
        channelSendFor "@chan"
          (({ UserData.empty with item := some "y",
                                  media := some [(MediaKind.video, "v1")] :
              UserData }).media.getD [])
          (format_listing
            { UserData.empty with item := some "y",
                                  media := some [(MediaKind.video, "v1")] }),
        Effect.editMessage ("✅ Опубликовано в " ++ "@chan"),
        Effect.removeFromDb (py_split1_tail "approve:6_200"), Effect.saveDb], none⟩
    ∧ ∀ uo : Int,
        ((moderation_handler [("ADMIN_IDS", "7"), ("CHANNEL_ID", "@chan")] 7
            "approve:6_200"
            [("6_200", ⟨6, none,
               { UserData.empty with item := some "y",
                                     media := some [(MediaKind.video, "v1")] }, "2024"⟩)]
            (Except.ok ())).trace.any (notifiesUser uo)) = false :=
  claim_C4_amended [("ADMIN_IDS", "7"), ("CHANNEL_ID", "@chan")] 7 "approve:6_200"
    [("6_200", ⟨6, none,
       { UserData.empty with item := some "y",
                             media := some [(MediaKind.video, "v1")] }, "2024"⟩)]
    ⟨6, none,
      { UserData.empty with item := some "y",
                            media := some [(MediaKind.video, "v1")] }, "2024"⟩
    "@chan" (by decide) (by decide) (by decide) rfl

/-- C1 counterexample: an admin's reject callback on an id that is absent from
the store leaves the store unchanged and performs no publish, but its reply is
the ordinary "❌ Отклонено и удалено." message — the handler never produces
the "not found / already processed" response on the reject path, contrary to
the claim that duplicate reject presses get a "not found" reply. -/
theorem claim_C1_counterexample :
    moderation_handler [("ADMIN_IDS", "1"), ("CHANNEL_ID", "@chan")] 1 "reject:zzz" []
        (Except.ok ()) =
      ⟨[], [Effect.answerCallback, Effect.editMessage "❌ Отклонено и удалено."], none⟩
    ∧ ((moderation_handler [("ADMIN_IDS", "1"), ("CHANNEL_ID", "@chan")] 1 "reject:zzz" []
          (Except.ok ())).trace.contains
        (Effect.editMessage "Заявка не найдена или уже обработана.")) = false := by
  constructor
  · rfl
  · rfl

/-- C1 amended: (i) an admin's approve on an id no longer in the store replies
"Заявка не найдена или уже обработана." ("not found / already processed"),
leaves the store unchanged, and performs no publish; (ii) an admin's reject on
such an id also leaves the store unchanged and performs no publish, but
replies with the ordinary rejection message rather than a distinct not-found
response; (iii) approving an id that is present (with the publish succeeding)
removes it, and a second approve of the very same callback data then yields
the not-found outcome of (i): the entry is removed exactly once and nothing
further is sent to the channel. -/
theorem claim_C1_amended (environ : EnvMap) (uid : Int) (dataA dataR : String)
    (db : Db) (publish : Except String Unit)
    (hadm : is_admin environ uid = true)
    (hA : strStartsWith dataA "approve:" = true)
    (hRnA : strStartsWith dataR "approve:" = false)
    (hR : strStartsWith dataR "reject:" = true) :
    (dbGet db (py_split1_tail dataA) = none →
      moderation_handler environ uid dataA db publish =
        ⟨db, [Effect.answerCallback,
              Effect.editMessage "Заявка не найдена или уже обработана."], none⟩)
    ∧ (dbGet db (py_split1_tail dataR) = none →
      moderation_handler environ uid dataR db publish =
        ⟨db, [Effect.answerCallback,
              Effect.editMessage "❌ Отклонено и удалено."], none⟩)
    ∧ (∀ sub ch, dbGet db (py_split1_tail dataA) = some sub →
        get_channel_id environ = Except.ok ch →
        dbGet (moderation_handler environ uid dataA db (Except.ok ())).db
            (py_split1_tail dataA) = none
        ∧ moderation_handler environ uid dataA
            (moderation_handler environ uid dataA db (Except.ok ())).db
            (Except.ok ()) =
          ⟨(moderation_handler environ uid dataA db (Except.ok ())).db,
           [Effect.answerCallback,
            Effect.editMessage "Заявка не найдена или уже обработана."], none⟩) := by
  refine ⟨fun hnone => ?_, fun hnone => ?_, fun sub ch hsub hch => ?_⟩
  · simp [moderation_handler, hadm, hA, hnone]
  · simp [moderation_handler, hadm, hRnA, hR, hnone]
  · have hdb1 :
        (moderation_handler environ uid dataA db (Except.ok ())).db =
          dbPop db (py_split1_tail dataA) := by
      simp [moderation_handler, hadm, hA, hsub, hch]
    rw [hdb1]
    refine ⟨dbGet_dbPop db (py_split1_tail dataA), ?_⟩
    simp [moderation_handler, hadm, hA, dbGet_dbPop]

/-- Witness for C1 amended: a concrete store holding one entry; the first
approve removes it and the second approve of the same button press data yields
the not-found outcome with no further change or send. -/
theorem claim_C1_witness :
    dbGet (moderation_handler [("ADMIN_IDS", "1"), ("CHANNEL_ID", "@chan")] 1
        "approve:5_100"
        [("5_100", ⟨5, none,
           { UserData.empty with item := some "x",
                                 media := some [(MediaKind.photo, "f1")] }, "2024"⟩)]
        (Except.ok ())).db
      (py_split1_tail "approve:5_100") = none
    ∧ moderation_handler [("ADMIN_IDS", "1"), ("CHANNEL_ID", "@chan")] 1 "approve:5_100"
        (moderation_handler [("ADMIN_IDS", "1"), ("CHANNEL_ID", "@chan")] 1
          "approve:5_100"
          [("5_100", ⟨5, none,
             { UserData.empty with item := some "x",
                                   media := some [(MediaKind.photo, "f1")] }, "2024"⟩)]
          (Except.ok ())).db
        (Except.ok ()) =
      ⟨(moderation_handler [("ADMIN_IDS", "1"), ("CHANNEL_ID", "@chan")] 1
          "approve:5_100"
          [("5_100", ⟨5, none,
             { UserData.empty with item := some "x",
                                   media := some [(MediaKind.photo, "f1")] }, "2024"⟩)]
          (Except.ok ())).db,
       [Effect.answerCallback,
        Effect.editMessage "Заявка не найдена или уже обработана."], none⟩ :=
  (claim_C1_amended [("ADMIN_IDS", "1"), ("CHANNEL_ID", "@chan")] 1 "approve:5_100"
      "reject:5_100"
      [("5_100", ⟨5, none,
         { UserData.empty with item := some "x",
                               media := some [(MediaKind.photo, "f1")] }, "2024"⟩)]
      (Except.ok ()) (by decide) (by decide) (by decide) (by decide)).2.2
    ⟨5, none,
      { UserData.empty with item := some "x",
                            media := some [(MediaKind.photo, "f1")] }, "2024"⟩
    "@chan" (by decide) rfl

/-- C7: cancel ends the conversation and clears every accumulated form field,
and a subsequent start yields a fresh record — identical whatever data had
been accumulated before the cancel — whose only content is the empty media
list, with every form field unset. -/
theorem claim_C7 (d d' : UserData) :
    (cancel_handler d).1 = UserData.empty
    ∧ (cancel_handler d).2.2 = NextState.ended
    ∧ start_handler ((cancel_handler d).1) = start_handler ((cancel_handler d').1)
    ∧ (start_handler ((cancel_handler d).1)).1 =
        { UserData.empty with media := some [] }
    ∧ (start_handler ((cancel_handler d).1)).1.category = none
    ∧ (start_handler ((cancel_handler d).1)).1.item = none
    ∧ (start_handler ((cancel_handler d).1)).1.size = none
    ∧ (start_handler ((cancel_handler d).1)).1.condition = none
    ∧ (start_handler ((cancel_handler d).1)).1.price = none
    ∧ (start_handler ((cancel_handler d).1)).1.city = none
    ∧ (start_handler ((cancel_handler d).1)).1.delivery = none
    ∧ (start_handler ((cancel_handler d).1)).1.contact = none
    ∧ (start_handler ((cancel_handler d).1)).1.description = none
    ∧ (start_handler ((cancel_handler d).1)).1.media = some []
    ∧ (start_handler ((cancel_handler d).1)).2.2 = NextState.state CAT :=
  ⟨rfl, rfl, rfl, rfl, rfl, rfl, rfl, rfl, rfl, rfl, rfl, rfl, rfl, rfl, rfl⟩

/-- C6: running the form on the concrete inputs Лыжи, Item X, 42, новые, 1000,
Москва, СДЭК, @user, desc, one photo, then «готово» produces a preview reply
whose caption is exactly the tag line `#Лыжи #42 #новые #Москва` followed by
the matching field lines, and moves to the CONFIRM state. -/
theorem claim_C6 :
    (media_done
      ((collect_media (IncomingMedia.photo "photo1")
        ((set_description "desc"
          ((set_contact "@user"
            ((set_delivery "СДЭК"
              ((set_city "Москва"
                ((set_price "1000"
                  ((set_condition "новые"
                    ((set_size "42"
                      ((set_item "Item X"
                        ((set_cat "Лыжи"
                          ((start_handler UserData.empty).1)).1)).1)).1)).1)).1)).1)).1)).1)).1)).1)) =
      ([Effect.replyPhoto "photo1"
          "#Лыжи #42 #новые #Москва\n\n<b>Товар:</b> Item X\n<b>Размер:</b> 42\n<b>Состояние:</b> новые\n<b>Цена:</b> 1000\n<b>Город:</b> Москва\n<b>Доставка:</b> СДЭК\n<b>Контакт:</b> @user\n\n<b>Описание:</b> desc",
        Effect.replyText "Проверь объявление. Всё верно?"],
       NextState.state CONFIRM) := by
  rfl

/-- The caption of item `i` of a prepared album is the listing text for
`i = 0` and `None` otherwise. -/
theorem mkAlbum_get_caption (l : List (MediaKind × String)) (text : String)
    (i : Nat) (h : i < (mkAlbum l text).length) :
    ((mkAlbum l text).get ⟨i, h⟩).caption = if i = 0 then some text else none := by
  simp [mkAlbum, List.get_eq_getElem, List.getElem_map, List.getElem_enum]

/-- C8: for a multi-item media list (two or more items), every send site — the
user preview of `media_done`, the admin notification of `confirm_handler`, and
the channel publish of `moderation_handler` — sends the album built by
`mkAlbum`, whose item `i` carries the rendered caption exactly when `i = 0`
and no caption otherwise. -/
theorem claim_C8 (media_list : List (MediaKind × String)) (text ch : String)
    (aid : Int) (i : Nat) (hi : i < (mkAlbum media_list text).length)
    (h2 : 2 ≤ media_list.length) :
    ((mkAlbum media_list text).get ⟨i, hi⟩).caption =
      (if i = 0 then some text else none)
    ∧ previewSend media_list text = Effect.replyMediaGroup (mkAlbum media_list text)
    ∧ adminSend aid media_list text =
        [Effect.sendUserMediaGroup aid (mkAlbum media_list text),
         Effect.sendUserMessage aid "Публикация:"]
    ∧ channelSendFor ch media_list text =
        Effect.sendChannelMediaGroup ch (mkAlbum media_list text) := by
  rcases media_list with _ | ⟨⟨ka, fa⟩, _ | ⟨b, r⟩⟩
  · simp at h2
  · simp at h2
  · cases ka <;>
      exact ⟨mkAlbum_get_caption _ text i hi, rfl, rfl, rfl⟩

/-- Witness for C8: a two-item album at index 1 carries no caption, and each
site sends the album. -/
theorem claim_C8_witness :
    ((mkAlbum [(MediaKind.photo, "a"), (MediaKind.video, "b")] "cap").get
        ⟨1, by decide⟩).caption = (if 1 = 0 then some "cap" else none)
    ∧ previewSend [(MediaKind.photo, "a"), (MediaKind.video, "b")] "cap" =
        Effect.replyMediaGroup (mkAlbum [(MediaKind.photo, "a"), (MediaKind.video, "b")] "cap")
    ∧ adminSend 7 [(MediaKind.photo, "a"), (MediaKind.video, "b")] "cap" =
        [Effect.sendUserMediaGroup 7
           (mkAlbum [(MediaKind.photo, "a"), (MediaKind.video, "b")] "cap"),
         Effect.sendUserMessage 7 "Публикация:"]
    ∧ channelSendFor "@chan" [(MediaKind.photo, "a"), (MediaKind.video, "b")] "cap" =
        Effect.sendChannelMediaGroup "@chan"
          (mkAlbum [(MediaKind.photo, "a"), (MediaKind.video, "b")] "cap") :=
  claim_C8 [(MediaKind.photo, "a"), (MediaKind.video, "b")] "cap" "@chan" 7 1
    (by decide) (by decide)

/-- C9 counterexample: with `BOT_TOKEN` and `WEBHOOK_URL` set but `CHANNEL_ID`
absent, startup succeeds — the target channel identifier is not checked at
startup; `env("CHANNEL_ID")` raises only when `get_channel_id()` runs inside
the approve branch of `moderation_handler`. -/
theorem claim_C9_counterexample :
    py_main [("BOT_TOKEN", "t"), ("WEBHOOK_URL", "https://svc/telegram")] =
      Except.ok ()
    ∧ lookupEnv [("BOT_TOKEN", "t"), ("WEBHOOK_URL", "https://svc/telegram")]
        "CHANNEL_ID" = none
    ∧ get_channel_id [("BOT_TOKEN", "t"), ("WEBHOOK_URL", "https://svc/telegram")] =
        Except.error "Missing required env var: CHANNEL_ID" :=
  ⟨rfl, rfl, rfl⟩

/-- C9 amended: startup succeeds exactly when `BOT_TOKEN` is present and, in
webhook mode (the default), `PORT` parses and `WEBHOOK_URL` is present — so a
missing bot token or webhook URL is fatal at startup; a missing `CHANNEL_ID`
instead raises from `get_channel_id()` at first use (during an approve), not
at startup. -/
theorem claim_C9_amended (environ : EnvMap) :
    (py_main environ = Except.ok () ↔
      (lookupEnv environ "BOT_TOKEN" ≠ none ∧
        (pyToUpper ((lookupEnv environ "MODE").getD "WEBHOOK") = "WEBHOOK" →
          (pyToInt ((lookupEnv environ "PORT").getD "10000")).isSome = true ∧
          lookupEnv environ "WEBHOOK_URL" ≠ none)))
    ∧ (lookupEnv environ "CHANNEL_ID" = none →
        get_channel_id environ = Except.error "Missing required env var: CHANNEL_ID") := by
  constructor
  · cases hb : lookupEnv environ "BOT_TOKEN" with
    | none => simp [py_main, env, hb]
    | some tok =>
      by_cases hm : pyToUpper ((lookupEnv environ "MODE").getD "WEBHOOK") = "WEBHOOK"
      · cases hp : pyToInt ((lookupEnv environ "PORT").getD "10000") with
        | none => simp [py_main, env, hb, hm, hp]
        | some p =>
          cases hw : lookupEnv environ "WEBHOOK_URL" with
          | none => simp [py_main, env, hb, hm, hp, hw]
          | some u => simp [py_main, env, hb, hm, hp, hw]
      · simp [py_main, env, hb, hm]
  · intro h
    simp [get_channel_id, env, h]

/-- Witness for C9 amended: a concrete environment with no `CHANNEL_ID` makes
`get_channel_id` raise. -/
theorem claim_C9_witness :
    get_channel_id [("BOT_TOKEN", "t")] =
      Except.error "Missing required env var: CHANNEL_ID" :=
  (claim_C9_amended [("BOT_TOKEN", "t")]).2 rfl

/-- Filtering an option-valued map over a cons splits off the head's list. -/
theorem filterMap_cons_toList {α β : Type} (f : α → Option β) (a : α) (l : List α) :
    List.filterMap f (a :: l) = (f a).toList ++ List.filterMap f l := by
  cases h : f a <;> simp [List.filterMap_cons, h]

/-- Joining a list with spaces under the source's `if tags else ""` guard is
the plain join (the join of the empty list is already `""`). -/
theorem if_pyJoin_space (l : List String) :
    (if l ≠ [] then pyJoin " " l else "") = pyJoin " " l := by
  cases l <;> simp [pyJoin]

/-- C5: the preview rendered by `format_listing` is exactly the spec's
preview: the tag line, then the entered fields in the fixed order item, size,
condition, price, city, delivery, contact, description, each missing field
rendered as the placeholder dash. -/
theorem claim_C5 (d : UserData) : format_listing d = spec_preview d := by
  have htags :
      List.filterMap specTagOf [d.category, d.size, d.condition, d.city] =
        tagPiece d.category ++ tagPiece d.size ++ tagPiece d.condition ++
          tagPiece d.city := by
    simp [filterMap_cons_toList, tagPiece_eq_toList, List.append_assoc]
  simp only [format_listing, spec_preview, specFieldLines, spec_tags]
  rw [htags, if_pyJoin_space]
  simp only [List.zipWith_cons_cons, List.zipWith_nil_left, List.zipWith_nil_right,
    pyJoin, String.append_assoc]
